import Mathlib

/-!
Shallow embedding of the data-preparation and filtering pipeline of `app.py`
(university enrollment dashboard).

Modelling conventions:
* A dataframe cell is a `Cell`: a numeric value (`Cell.num`, rationals standing
  for the numeric values handled exactly by the tabular engine), a non-numeric
  string (`Cell.str`), or a missing value (`Cell.na`, covering both `NaN` and
  `pd.NA`).
* A dataframe is a `List` of row structures; column renames are reflected in
  the field names of the row structures.
* `pd.to_numeric(..., errors="coerce")` maps a non-numeric string cell to a
  missing value and keeps numeric cells; the `astype("Int64")` step only
  changes the column dtype, never a cell's numeric value, so it is not
  modelled separately (its `try/except` fallback keeps the same values).
* Streamlit control flow (`st.stop`) is modelled by the constructors of
  `RenderResult`: the script either stops at the load guard (`noData`), stops
  at the empty-filter guard (`noRows`), or renders the full dashboard.
* Python truthiness of a selection list (`if year_sel:`) is `¬ isEmpty`;
  Python truthiness of `pd.NA` raises `TypeError`, which is modelled as an
  `Except.error` in the KPI block.
-/

/-- A dataframe cell: numeric, non-numeric string, or missing. -/
inductive Cell : Type where
  | num (q : ℚ) : Cell
  | str (s : String) : Cell
  | na : Cell
deriving DecidableEq, Repr

/-- One row of the wide source table (`university_student_data.csv`),
field names following the CSV headers used in `app.py`'s `melt` call. -/
structure WideRow : Type where
  year : Cell                  -- "Year"
  term : Cell                  -- "Term"
  applications : Cell          -- "Applications"
  admitted : Cell              -- "Admitted"
  enrolled : Cell              -- "Enrolled"
  retentionRate : Cell         -- "Retention Rate (%)"
  satisfactionScore : Cell     -- "Student Satisfaction (%)"
  engineeringEnrolled : Cell   -- "Engineering Enrolled"
  businessEnrolled : Cell      -- "Business Enrolled"
  artsEnrolled : Cell          -- "Arts Enrolled"
  scienceEnrolled : Cell       -- "Science Enrolled"
deriving DecidableEq, Repr

/-- One row of the long (melted) table.  The fields `retentionRate` and
`satisfactionScore` carry the post-`rename` column names; `enrollments` is
the column added by `df["Enrollments"] = df["EnrollmentsDept"]` (it is
`Cell.na` in the rows produced by `melt`, before that assignment). -/
structure LongRecord : Type where
  year : Cell
  term : Cell
  applications : Cell
  admitted : Cell
  enrolled : Cell
  retentionRate : Cell
  satisfactionScore : Cell
  department : String          -- "Department" (melt var_name)
  enrollmentsDept : Cell       -- "EnrollmentsDept" (melt value_name)
  enrollments : Cell           -- "Enrollments" (added after the melt)
deriving DecidableEq, Repr

/-- `dropPat pat l = some r` iff `l = pat ++ r`: match the pattern at the
front of a character list, returning the remainder. -/
def dropPat : List Char → List Char → Option (List Char)
  | [], l => some l
  | _ :: _, [] => none
  | p :: ps, c :: cs => if c = p then dropPat ps cs else none

/-- Remove every occurrence of the nonempty pattern `p :: ps` from a
character list.  Models `Series.str.replace(pat, "", regex=False)`.
Structural recursion on a fuel argument (the scan consumes at least one
character per step, so fuel `l.length` always suffices). -/
def removeOcc (p : Char) (ps : List Char) : Nat → List Char → List Char
  | 0, _ => []
  | _, [] => []
  | fuel + 1, c :: rest =>
    match dropPat (p :: ps) (c :: rest) with
    | some remainder => removeOcc p ps fuel remainder
    | none => c :: removeOcc p ps fuel rest

/-- `df["Department"].str.replace(" Enrolled", "", regex=False)` applied to
one cell. -/
def stripEnrolled (s : String) : String :=
  String.mk (removeOcc ' ' "Enrolled".data s.data.length s.data)

/-! ## Reshaper (`df.melt` + Department strip + rename + Enrollments) -/

/-- One melted row for the department column named `colName` whose cell in
the wide row `w` is `value`.  The id columns are copied unchanged; the
`enrollments` column does not exist yet (`Cell.na`). -/
def meltRow (w : WideRow) (colName : String) (value : Cell) : LongRecord :=
  { year := w.year, term := w.term, applications := w.applications,
    admitted := w.admitted, enrolled := w.enrolled,
    retentionRate := w.retentionRate,
    satisfactionScore := w.satisfactionScore,
    department := colName, enrollmentsDept := value, enrollments := Cell.na }

/-- `df.melt(id_vars=[...], value_vars=["Engineering Enrolled", "Business
Enrolled", "Arts Enrolled", "Science Enrolled"], var_name="Department",
value_name="EnrollmentsDept")`: pandas stacks the whole table once per
value column, in declared column order. -/
def melt (rows : List WideRow) : List LongRecord :=
  rows.map (fun w => meltRow w "Engineering Enrolled" w.engineeringEnrolled) ++
  rows.map (fun w => meltRow w "Business Enrolled" w.businessEnrolled) ++
  rows.map (fun w => meltRow w "Arts Enrolled" w.artsEnrolled) ++
  rows.map (fun w => meltRow w "Science Enrolled" w.scienceEnrolled)

/-- `df["Department"] = df["Department"].str.replace(" Enrolled", "", regex=False)`. -/
def stripDept (l : LongRecord) : LongRecord :=
  { l with department := stripEnrolled l.department }

/-- `df["Enrollments"] = df["EnrollmentsDept"]`. -/
def setEnrollments (l : LongRecord) : LongRecord :=
  { l with enrollments := l.enrollmentsDept }

/-- The whole reshaping stage of `app.py` (melt, strip, rename — the rename
is reflected in the field names — and the `Enrollments` assignment). -/
def reshape (rows : List WideRow) : List LongRecord :=
  ((melt rows).map stripDept).map setEnrollments

/-- The long row a wide row contributes for one department: id columns
copied, department suffix stripped, `Enrollments` set. -/
def expDept (w : WideRow) (deptName : String) (value : Cell) : LongRecord :=
  { year := w.year, term := w.term, applications := w.applications,
    admitted := w.admitted, enrolled := w.enrolled,
    retentionRate := w.retentionRate, satisfactionScore := w.satisfactionScore,
    department := deptName, enrollmentsDept := value, enrollments := value }

def expEng (w : WideRow) : LongRecord := expDept w "Engineering" w.engineeringEnrolled
def expBus (w : WideRow) : LongRecord := expDept w "Business" w.businessEnrolled
def expArts (w : WideRow) : LongRecord := expDept w "Arts" w.artsEnrolled
def expSci (w : WideRow) : LongRecord := expDept w "Science" w.scienceEnrolled

/-- The four long rows derived from one wide row, in melt column order. -/
def rowExpansion (w : WideRow) : List LongRecord :=
  [expEng w, expBus w, expArts w, expSci w]

/-! ## Validator/Coercer -/

/-- `pd.to_numeric(col, errors="coerce")` on one cell: numeric cells are
kept, non-numeric strings and missing values become missing.  The
subsequent `astype("Int64")` (guarded by `try/except` with a plain
`to_numeric` fallback) only changes the column dtype, never a value. -/
def to_numeric (c : Cell) : Cell :=
  match c with
  | Cell.num q => Cell.num q
  | Cell.str _ => Cell.na
  | Cell.na => Cell.na

/-- The type-normalisation loops of `app.py`: `Year`, `Applications`,
`Enrollments` (integer target) and `RetentionRate`, `SatisfactionScore`
(float target) are coerced cell-wise; every other column is untouched. -/
def coerceRecord (r : LongRecord) : LongRecord :=
  { r with
    year := to_numeric r.year,
    applications := to_numeric r.applications,
    enrollments := to_numeric r.enrollments,
    retentionRate := to_numeric r.retentionRate,
    satisfactionScore := to_numeric r.satisfactionScore }

/-- The long table as the filter stage sees it: reshaped, then coerced. -/
def prepared (rows : List WideRow) : List LongRecord :=
  (reshape rows).map coerceRecord

/-! ## Filter Engine -/

/-- The three `isin` filters of `app.py`.  A selection list is applied only
when it is nonempty (Python truthiness of `if year_sel:` etc.); pandas
`isin` is membership, with missing values matching only a missing value in
the selection list. -/
def filterEngine (ysel : List Cell) (dsel : List String) (tsel : List Cell)
    (df : List LongRecord) : List LongRecord :=
  let df1 := if ysel.isEmpty then df else df.filter (fun r => decide (r.year ∈ ysel))
  let df2 := if dsel.isEmpty then df1 else df1.filter (fun r => decide (r.department ∈ dsel))
  if tsel.isEmpty then df2 else df2.filter (fun r => decide (r.term ∈ tsel))

/-! ## Sidebar default selections (`sorted(df[col].dropna().unique().tolist())`) -/

/-- pandas `Series.unique()`: distinct values in first-seen order.
Structural recursion on a fuel argument (`l.length` always suffices). -/
def uniqueFuel {α : Type} [DecidableEq α] : Nat → List α → List α
  | 0, _ => []
  | _, [] => []
  | fuel + 1, a :: rest => a :: uniqueFuel fuel (rest.filter (fun x => decide (x ≠ a)))

/-- pandas `Series.unique().tolist()`. -/
def uniqueList {α : Type} [DecidableEq α] (l : List α) : List α :=
  uniqueFuel l.length l

/-- The order Python `sorted` uses on the homogeneous option lists of the
sidebar: numbers by value, strings lexicographically (the cross-kind cases
never arise for a homogeneous column; they are ordered arbitrarily but
totally so that sorting is well defined). -/
def cellLEb : Cell → Cell → Bool
  | Cell.num a, Cell.num b => decide (a ≤ b)
  | Cell.num _, Cell.str _ => true
  | Cell.num _, Cell.na => true
  | Cell.str _, Cell.num _ => false
  | Cell.str a, Cell.str b => decide (a ≤ b)
  | Cell.str _, Cell.na => true
  | Cell.na, Cell.na => true
  | Cell.na, Cell.num _ => false
  | Cell.na, Cell.str _ => false

def cellLE (a b : Cell) : Prop := cellLEb a b = true

instance : DecidableRel cellLE := fun a b => instDecidableEqBool (cellLEb a b) true

/-- `sorted(...)` on a list of cells. -/
def sortCells (l : List Cell) : List Cell := List.insertionSort cellLE l

/-- `sorted(df[col].dropna().unique().tolist())` for a cell-valued column. -/
def defaultSelection (get : LongRecord → Cell) (df : List LongRecord) : List Cell :=
  sortCells (uniqueList ((df.map get).filter (fun c => decide (c ≠ Cell.na))))

/-- `years = sorted(df["Year"].dropna().unique().tolist())`. -/
def defaultYears (df : List LongRecord) : List Cell :=
  defaultSelection (fun r => r.year) df

/-- `terms = sorted(df["Term"].dropna().unique().tolist())`. -/
def defaultTerms (df : List LongRecord) : List Cell :=
  defaultSelection (fun r => r.term) df

/-- `depts = sorted(df["Department"].dropna().unique().tolist())`: the
`Department` column is string-valued and never missing, so `dropna` is the
identity on it. -/
def defaultDepts (df : List LongRecord) : List String :=
  List.insertionSort (fun a b : String => a ≤ b) (uniqueList (df.map (fun r => r.department)))

/-! ## Aggregator -/

/-- The numeric value of a cell, if any. -/
def numVal : Cell → Option ℚ
  | Cell.num q => some q
  | _ => none

/-- pandas `Series.mean()` (skipna): the mean of the numeric cells, or
missing (`none`, displayed "N/A") when there is none. -/
def meanCells (cells : List Cell) : Option ℚ :=
  let vals := cells.filterMap numVal
  if vals.isEmpty then none else some (vals.sum / (vals.length : ℚ))

/-- pandas `Series.sum(min_count=1)`: missing when no numeric cell exists,
otherwise the sum of the numeric cells. -/
def sumMinCount1 (cells : List Cell) : Cell :=
  let vals := cells.filterMap numVal
  if vals.isEmpty then Cell.na else Cell.num vals.sum

/-- pandas `Series.sum()` with the default `min_count=0`: the sum of the
numeric cells, `0` when there is none. -/
def sumCells (cells : List Cell) : ℚ :=
  (cells.filterMap numVal).sum

/-- Python `int(...)`: truncation toward zero (the sums it is applied to
are integral in practice). -/
def ratToInt (q : ℚ) : ℤ := q.num / (q.den : ℤ)

/-- `int(df_f["Enrollments"].sum(min_count=1) or 0)`.  The `or` evaluates
the truthiness of the sum: a missing sum (`pd.NA` / `NaN`) cannot be used
as a boolean (pandas raises `TypeError: boolean value of NA is ambiguous`;
the float path fails at `int(nan)` instead) — modelled as `Except.error`.
A zero sum is falsy, giving `int(0)`; any other number passes through. -/
def totalEnr (cells : List Cell) : Except String ℤ :=
  match sumMinCount1 cells with
  | Cell.na => Except.error "boolean value of NA is ambiguous"
  | Cell.num q => Except.ok (if q = 0 then 0 else ratToInt q)
  | Cell.str _ => Except.error "invalid literal for int()"

/-- Outcome of the guarded KPI block: either the three rendered metrics
(`None` means an "N/A" display) or the single inline `st.error` that
replaces all three when any of the computations raises. -/
inductive KpiOutcome : Type where
  | metrics (avgRet avgSat : Option ℚ) (total : ℤ) : KpiOutcome
  | kpiError (msg : String) : KpiOutcome
deriving DecidableEq, Repr

/-- The `try`-block for the KPIs: `avg_ret`/`avg_sat` are skipna means and
cannot raise; `total_enr` can (see `totalEnr`), in which case the whole
block is replaced by the `st.error` message and no metric is shown. -/
def computeKpis (df : List LongRecord) : KpiOutcome :=
  let avg_ret := meanCells (df.map (fun r => r.retentionRate))
  let avg_sat := meanCells (df.map (fun r => r.satisfactionScore))
  match totalEnr (df.map (fun r => r.enrollments)) with
  | Except.ok t => KpiOutcome.metrics avg_ret avg_sat t
  | Except.error e => KpiOutcome.kpiError ("Error calculando KPIs: " ++ e)

/-- The distinct non-missing values of `key` over `df`, in the ascending
order pandas `groupby(key)` uses (`sort=True`, `dropna=True` defaults). -/
def groupKeys (key : LongRecord → Cell) (df : List LongRecord) : List Cell :=
  sortCells (uniqueList ((df.map key).filter (fun c => decide (c ≠ Cell.na))))

/-- `df_f.groupby(key, as_index=False)[val].mean()`: one `(key, mean)` row
per distinct non-missing key, keys ascending, mean skipna per group. -/
def groupbyMean (key val : LongRecord → Cell) (df : List LongRecord) :
    List (Cell × Option ℚ) :=
  (groupKeys key df).map
    (fun k => (k, meanCells ((df.filter (fun r => decide (key r = k))).map val)))

/-- `df_f.groupby(key, as_index=False)[val].sum()`: one `(key, sum)` row
per distinct non-missing key, keys ascending, default `min_count=0`. -/
def groupbySum (key val : LongRecord → Cell) (df : List LongRecord) :
    List (Cell × ℚ) :=
  (groupKeys key df).map
    (fun k => (k, sumCells ((df.filter (fun r => decide (key r = k))).map val)))

/-- `df_ret = df_f.groupby("Year", as_index=False)["RetentionRate"].mean()`. -/
def dfRet (df : List LongRecord) : List (Cell × Option ℚ) :=
  groupbyMean (fun r => r.year) (fun r => r.retentionRate) df

/-- `df_sat = df_f.groupby("Year", as_index=False)["SatisfactionScore"].mean()`. -/
def dfSat (df : List LongRecord) : List (Cell × Option ℚ) :=
  groupbyMean (fun r => r.year) (fun r => r.satisfactionScore) df

/-- `df_term = df_f.groupby("Term", as_index=False)["Enrollments"].sum()`. -/
def dfTerm (df : List LongRecord) : List (Cell × ℚ) :=
  groupbySum (fun r => r.term) (fun r => r.enrollments) df

/-! ## Loader and whole-pipeline control flow -/

/-- What the filesystem holds at one candidate path of `DATA_PATHS`:
nothing, a file `pd.read_csv` raises on, or a parseable CSV. -/
inductive FileState : Type where
  | missing : FileState
  | malformed : FileState
  | csv (t : List WideRow) : FileState
deriving DecidableEq, Repr

/-- Whether a candidate parses (`path.exists()` and `pd.read_csv` succeeds). -/
def parses : FileState → Bool
  | FileState.csv _ => true
  | _ => false

/-- `load_data()`: walk the candidate paths in order; a missing path fails
the `exists()` test and a malformed file's `read_csv` exception is caught
by the `except: continue` — both silently advance; the first parsed table
is returned; `None` if no candidate is left. -/
def load_data : List FileState → Option (List WideRow)
  | [] => none
  | FileState.missing :: rest => load_data rest
  | FileState.malformed :: rest => load_data rest
  | FileState.csv t :: _ => some t

/-- Result of one guarded dashboard section (chart or table): rendered
content, or the inline `st.error` shown in its place. -/
inductive SectionResult (α : Type) : Type where
  | rendered (a : α) : SectionResult α
  | inlineError (msg : String) : SectionResult α
deriving DecidableEq, Repr

/-- Everything rendered below the empty-filter guard.  Each field comes
from its own `try/except` (or is plain display code), so each is a
function of the filtered table alone. -/
structure Dashboard : Type where
  kpis : KpiOutcome
  retChart : SectionResult (List (Cell × Option ℚ))
  satChart : SectionResult (List (Cell × Option ℚ))
  termChart : SectionResult (List (Cell × ℚ))
  filteredTable : List LongRecord
deriving DecidableEq, Repr

/-- The guarded sections of `app.py` for a non-empty filtered table.  The
three aggregations are total, so their guards never fire in the model; the
KPI guard can (see `computeKpis`). -/
def renderFiltered (df_f : List LongRecord) : Dashboard :=
  { kpis := computeKpis df_f,
    retChart := SectionResult.rendered (dfRet df_f),
    satChart := SectionResult.rendered (dfSat df_f),
    termChart := SectionResult.rendered (dfTerm df_f),
    filteredTable := df_f }

/-- Outcome of one top-to-bottom run of the script: stopped at the load
guard (`st.error` + `st.stop`, the instructional message), stopped at the
empty-filter guard (`st.warning` + `st.stop`), or the full dashboard. -/
inductive RenderResult : Type where
  | noData : RenderResult
  | noRows : RenderResult
  | dashboard (d : Dashboard) : RenderResult
deriving DecidableEq, Repr

/-- One full run of `app.py` with the given filesystem contents and sidebar
selections: load → (guard) → reshape → coerce → filter → (guard) → KPIs,
charts, filtered table. -/
def runApp (fs : List FileState) (ysel : List Cell) (dsel : List String)
    (tsel : List Cell) : RenderResult :=
  match load_data fs with
  | none => RenderResult.noData
  | some wide =>
    let df_f := filterEngine ysel dsel tsel (prepared wide)
    if df_f.isEmpty then RenderResult.noRows
    else RenderResult.dashboard (renderFiltered df_f)

/-! ## Concrete sample data (spec section 8 scenarios and failing inputs) -/

/-- `4.2` as a normalised rational (explicit constructor, so that kernel
evaluation of cell comparisons never has to run rational arithmetic). -/
def ratFourPointTwo : ℚ := ⟨21, 5, by decide, by decide⟩

/-- The well-formed wide row of the spec's reshape scenario: Year 2020,
Term "Fall", departments 50/30/10/10, retention 85.0, satisfaction 4.2. -/
def sampleWide : WideRow :=
  { year := Cell.num 2020, term := Cell.str "Fall", applications := Cell.num 100,
    admitted := Cell.num 80, enrolled := Cell.num 70,
    retentionRate := Cell.num 85, satisfactionScore := Cell.num ratFourPointTwo,
    engineeringEnrolled := Cell.num 50, businessEnrolled := Cell.num 30,
    artsEnrolled := Cell.num 10, scienceEnrolled := Cell.num 10 }

/-- A wide row whose four department-enrollment cells are non-numeric
strings: after coercion, every `Enrollments` cell of its long rows is
missing. -/
def wBad : WideRow :=
  { year := Cell.num 2020, term := Cell.str "Fall", applications := Cell.num 100,
    admitted := Cell.num 80, enrolled := Cell.num 70,
    retentionRate := Cell.num 85, satisfactionScore := Cell.num ratFourPointTwo,
    engineeringEnrolled := Cell.str "n/a", businessEnrolled := Cell.str "n/a",
    artsEnrolled := Cell.str "n/a", scienceEnrolled := Cell.str "n/a" }

/-- A long row for the spec's yearly-series scenario: Year 2020,
RetentionRate 80. -/
def rec2020 : LongRecord :=
  { year := Cell.num 2020, term := Cell.str "Fall",
    applications := Cell.num 100, admitted := Cell.num 80,
    enrolled := Cell.num 70, retentionRate := Cell.num 80,
    satisfactionScore := Cell.num 4, department := "Engineering",
    enrollmentsDept := Cell.num 50, enrollments := Cell.num 50 }

/-- Year 2021, RetentionRate 90, otherwise as `rec2020`. -/
def rec2021 : LongRecord :=
  { rec2020 with year := Cell.num 2021, retentionRate := Cell.num 90 }

/-- A long row with a non-numeric `Applications` cell (spec's coercion
scenario). -/
def recBadApp : LongRecord :=
  { rec2020 with applications := Cell.str "abc" }

/-- A long row whose `Year` is missing. -/
def recNAYear : LongRecord :=
  { rec2020 with year := Cell.na }

/-! ## Helper lemmas -/

example : stripEnrolled "Engineering Enrolled" = "Engineering" := by decide
example : stripEnrolled "Science Enrolled" = "Science" := by decide

theorem mem_uniqueFuel {α : Type} [DecidableEq α] (x : α) :
    ∀ (n : Nat) (l : List α), l.length ≤ n → (x ∈ uniqueFuel n l ↔ x ∈ l) := by
  intro n
  induction n with
  | zero =>
    intro l h
    cases l with
    | nil => simp [uniqueFuel]
    | cons a rest => simp at h
  | succ n ih =>
    intro l h
    cases l with
    | nil => simp [uniqueFuel]
    | cons a rest =>
      simp only [uniqueFuel, List.mem_cons]
      rw [ih _ (le_trans (List.length_filter_le _ _) (Nat.le_of_succ_le_succ h))]
      by_cases hx : x = a
      · simp [hx]
      · simp [List.mem_filter, hx]

theorem mem_uniqueList {α : Type} [DecidableEq α] (x : α) (l : List α) :
    x ∈ uniqueList l ↔ x ∈ l :=
  mem_uniqueFuel x l.length l le_rfl

theorem nodup_uniqueFuel {α : Type} [DecidableEq α] :
    ∀ (n : Nat) (l : List α), l.length ≤ n → (uniqueFuel n l).Nodup := by
  intro n
  induction n with
  | zero =>
    intro l h
    cases l with
    | nil => simp [uniqueFuel]
    | cons a rest => simp at h
  | succ n ih =>
    intro l h
    cases l with
    | nil => simp [uniqueFuel]
    | cons a rest =>
      have hlen : (rest.filter (fun x => decide (x ≠ a))).length ≤ n :=
        le_trans (List.length_filter_le _ _) (Nat.le_of_succ_le_succ h)
      refine List.Nodup.cons ?_ (ih _ hlen)
      intro hmem
      have := (mem_uniqueFuel a n _ hlen).mp hmem
      simp [List.mem_filter] at this

theorem nodup_uniqueList {α : Type} [DecidableEq α] (l : List α) :
    (uniqueList l).Nodup :=
  nodup_uniqueFuel l.length l le_rfl

instance : IsTotal Cell cellLE :=
  ⟨by intro a b; cases a <;> cases b <;> simp [cellLE, cellLEb] <;> exact le_total _ _⟩

instance : IsTrans Cell cellLE := by
  refine ⟨?_⟩
  intro a b c hab hbc
  cases a <;> cases b <;> cases c <;>
    simp_all [cellLE, cellLEb] <;> exact le_trans hab hbc

theorem mem_sortCells (x : Cell) (l : List Cell) : x ∈ sortCells l ↔ x ∈ l :=
  List.mem_insertionSort cellLE

/-- Membership in a default selection list: exactly the non-missing values
the column takes. -/
theorem mem_defaultSelection (get : LongRecord → Cell) (df : List LongRecord)
    (c : Cell) :
    c ∈ defaultSelection get df ↔ c ≠ Cell.na ∧ ∃ r ∈ df, get r = c := by
  simp only [defaultSelection, mem_sortCells, mem_uniqueList, List.mem_filter,
    List.mem_map, decide_eq_true_eq]
  tauto

/-- The single filter-engine characterisation used by several claims. -/
theorem mem_filterEngine (ysel : List Cell) (dsel : List String)
    (tsel : List Cell) (df : List LongRecord) (r : LongRecord) :
    r ∈ filterEngine ysel dsel tsel df ↔
      r ∈ df ∧ (ysel = [] ∨ r.year ∈ ysel) ∧ (dsel = [] ∨ r.department ∈ dsel) ∧
        (tsel = [] ∨ r.term ∈ tsel) := by
  unfold filterEngine
  by_cases hy : ysel = [] <;> by_cases hd : dsel = [] <;> by_cases ht : tsel = [] <;>
    simp [hy, hd, ht, List.isEmpty_iff, List.mem_filter] <;> tauto

/-- `(A ++ B)[R + n]? = B[n]?` when `A` has length `R`. -/
theorem getElem?_append_offset {α : Type} (A B : List α) (R n : Nat)
    (hl : A.length = R) : (A ++ B)[R + n]? = B[n]? := by
  subst hl
  rw [List.getElem?_append_right (Nat.le_add_right _ _)]
  simp

/-- The reshaping pipeline written as four per-department column blocks:
this is literally `melt` with the strip and the `Enrollments` assignment
pushed into each block. -/
theorem reshape_eq (rows : List WideRow) :
    reshape rows =
      rows.map expEng ++ (rows.map expBus ++ (rows.map expArts ++ rows.map expSci)) := by
  simp only [reshape, melt, List.map_append, List.map_map, List.append_assoc]
  rfl

theorem length_reshape (rows : List WideRow) :
    (reshape rows).length = 4 * rows.length := by
  simp [reshape_eq]
  omega

/-- The four rows produced from the `i`-th original row sit at positions
`i`, `R + i`, `2R + i`, `3R + i` of the reshaped table. -/
theorem reshape_positions (rows : List WideRow) (i : Nat) (h : i < rows.length) :
    (reshape rows)[i]? = some (expEng rows[i]) ∧
    (reshape rows)[rows.length + i]? = some (expBus rows[i]) ∧
    (reshape rows)[2 * rows.length + i]? = some (expArts rows[i]) ∧
    (reshape rows)[3 * rows.length + i]? = some (expSci rows[i]) := by
  rw [reshape_eq]
  refine ⟨?_, ?_, ?_, ?_⟩
  · rw [List.getElem?_append_left (by simp [h])]
    simp [List.getElem?_eq_getElem h]
  · rw [getElem?_append_offset _ _ _ _ (by simp),
      List.getElem?_append_left (by simp [h])]
    simp [List.getElem?_eq_getElem h]
  · have h2 : 2 * rows.length + i = rows.length + (rows.length + i) := by ring
    rw [h2, getElem?_append_offset _ _ _ _ (by simp),
      getElem?_append_offset _ _ _ _ (by simp),
      List.getElem?_append_left (by simp [h])]
    simp [List.getElem?_eq_getElem h]
  · have h3 : 3 * rows.length + i = rows.length + (rows.length + (rows.length + i)) := by
      ring
    rw [h3, getElem?_append_offset _ _ _ _ (by simp),
      getElem?_append_offset _ _ _ _ (by simp),
      getElem?_append_offset _ _ _ _ (by simp)]
    simp [List.getElem?_eq_getElem h]

/-- Membership in the key list of a grouping: exactly the non-missing
values of the key column. -/
theorem mem_groupKeys (key : LongRecord → Cell) (df : List LongRecord) (c : Cell) :
    c ∈ groupKeys key df ↔ c ≠ Cell.na ∧ ∃ r ∈ df, key r = c := by
  simp only [groupKeys, mem_sortCells, mem_uniqueList, List.mem_filter,
    List.mem_map, decide_eq_true_eq]
  tauto

theorem map_fst_groupbyMean (key val : LongRecord → Cell) (df : List LongRecord) :
    (groupbyMean key val df).map Prod.fst = groupKeys key df := by
  simp only [groupbyMean, List.map_map]
  have : (Prod.fst ∘ fun k : Cell =>
      (k, meanCells ((df.filter (fun r => decide (key r = k))).map val))) = id := by
    funext k
    rfl
  rw [this, List.map_id]

theorem load_data_skip (pre : List FileState) (hpre : ∀ f ∈ pre, parses f = false)
    (l2 : List FileState) : load_data (pre ++ l2) = load_data l2 := by
  induction pre with
  | nil => rfl
  | cons f pre ih =>
    cases f with
    | missing =>
      exact ih (fun g hg => hpre g (List.mem_cons_of_mem _ hg))
    | malformed =>
      exact ih (fun g hg => hpre g (List.mem_cons_of_mem _ hg))
    | csv t =>
      have := hpre (FileState.csv t) (List.mem_cons_self _ _)
      simp [parses] at this

theorem load_data_none_iff (fs : List FileState) :
    load_data fs = none ↔ ∀ f ∈ fs, parses f = false := by
  induction fs with
  | nil => simp [load_data]
  | cons f rest ih =>
    cases f with
    | missing => simp [load_data, parses, ih]
    | malformed => simp [load_data, parses, ih]
    | csv t => simp [load_data, parses]

/-! ## Claim theorems -/

/-- Claim C1: a long row is in the Filter Engine's output iff it is a row
of the input table and its Year, Department and Term each belong to the
corresponding selection set, where an empty selection set imposes no
restriction (AND across dimensions, membership within a dimension). -/
theorem filter_engine_iff (ysel : List Cell) (dsel : List String)
    (tsel : List Cell) (df : List LongRecord) (r : LongRecord) :
    r ∈ filterEngine ysel dsel tsel df ↔
      r ∈ df ∧ (ysel = [] ∨ r.year ∈ ysel) ∧ (dsel = [] ∨ r.department ∈ dsel) ∧
        (tsel = [] ∨ r.term ∈ tsel) :=
  mem_filterEngine ysel dsel tsel df r

/-- Claim C2: a wide table with `R` rows reshapes to exactly `4 * R` long
rows; the four rows produced from the `i`-th original row (at positions
`i`, `R + i`, `2R + i`, `3R + i`) are its expansion, whose Department
values are exactly Engineering, Business, Arts, Science (the literal
" Enrolled" suffix stripped), all four sharing the original row's scalar
fields and differing only in Department and Enrollments
(`= EnrollmentsDept`). -/
theorem reshape_four_rows (rows : List WideRow) :
    (reshape rows).length = 4 * rows.length ∧
    (∀ i (hi : i < rows.length),
      (reshape rows)[i]? = some (expEng rows[i]) ∧
      (reshape rows)[rows.length + i]? = some (expBus rows[i]) ∧
      (reshape rows)[2 * rows.length + i]? = some (expArts rows[i]) ∧
      (reshape rows)[3 * rows.length + i]? = some (expSci rows[i])) ∧
    (∀ w : WideRow,
      rowExpansion w = [expEng w, expBus w, expArts w, expSci w] ∧
      (rowExpansion w).map (fun l => l.department) =
        ["Engineering", "Business", "Arts", "Science"] ∧
      ∀ l ∈ rowExpansion w,
        l.year = w.year ∧ l.term = w.term ∧ l.applications = w.applications ∧
        l.admitted = w.admitted ∧ l.enrolled = w.enrolled ∧
        l.retentionRate = w.retentionRate ∧
        l.satisfactionScore = w.satisfactionScore ∧
        l.enrollments = l.enrollmentsDept) := by
  refine ⟨length_reshape rows, fun i hi => reshape_positions rows i hi,
    fun w => ⟨rfl, rfl, fun l hl => ?_⟩⟩
  have h4 : l = expEng w ∨ l = expBus w ∨ l = expArts w ∨ l = expSci w := by
    simpa [rowExpansion] using hl
  rcases h4 with rfl | rfl | rfl | rfl <;>
    exact ⟨rfl, rfl, rfl, rfl, rfl, rfl, rfl, rfl⟩

theorem reshape_four_rows_witness :
    (reshape [sampleWide]).length = 4 * 1 ∧
    (reshape [sampleWide])[0]? = some (expEng sampleWide) ∧
    (rowExpansion sampleWide).map (fun l => l.department) =
      ["Engineering", "Business", "Arts", "Science"] := by
  have h := reshape_four_rows [sampleWide]
  exact ⟨h.1, (h.2.1 0 (by decide)).1, (h.2.2 sampleWide).2.1⟩

/-- Claim C3: whenever the filter result is empty, the run stops at the
empty-filter guard (`st.warning` + `st.stop`): the result is `noRows`,
carrying no KPI, no chart and no filtered table, and the model is total
(no exception escapes). -/
theorem empty_filter_stops (fs : List FileState) (wide : List WideRow)
    (ysel : List Cell) (dsel : List String) (tsel : List Cell)
    (h1 : load_data fs = some wide)
    (h2 : filterEngine ysel dsel tsel (prepared wide) = []) :
    runApp fs ysel dsel tsel = RenderResult.noRows := by
  simp [runApp, h1, h2]

theorem empty_filter_stops_witness :
    runApp [FileState.csv [sampleWide]] [Cell.num 1999] [] [] =
      RenderResult.noRows :=
  empty_filter_stops [FileState.csv [sampleWide]] [sampleWide]
    [Cell.num 1999] [] [] (by decide) (by decide)

/-- Claim C4: the Loader returns the first successfully parsed table,
silently advancing past missing or malformed candidates without raising
(the model is total — in fact it never raises, even on the last
candidate); it returns the `none` sentinel iff no candidate parses, and a
sentinel makes the whole run stop at the load guard (`noData`: the
instructional `st.error` + `st.stop`), before any reshaping, warning, KPI
or chart. -/
theorem loader_first_success (pre rest : List FileState) (t : List WideRow)
    (hpre : ∀ f ∈ pre, parses f = false) :
    load_data (pre ++ FileState.csv t :: rest) = some t ∧
    (∀ fs : List FileState, load_data fs = none ↔ ∀ f ∈ fs, parses f = false) ∧
    (∀ (fs : List FileState) (ysel : List Cell) (dsel : List String)
        (tsel : List Cell),
      load_data fs = none → runApp fs ysel dsel tsel = RenderResult.noData) := by
  refine ⟨?_, load_data_none_iff, ?_⟩
  · rw [load_data_skip pre hpre]
    rfl
  · intro fs ysel dsel tsel h
    simp [runApp, h]

theorem loader_first_success_witness :
    load_data [FileState.missing, FileState.malformed,
      FileState.csv [sampleWide]] = some [sampleWide] ∧
    runApp [FileState.missing, FileState.missing] [] [] [] =
      RenderResult.noData := by
  have h := loader_first_success [FileState.missing, FileState.malformed] []
    [sampleWide] (by decide)
  exact ⟨h.1, h.2.2 [FileState.missing, FileState.missing] [] [] [] (by decide)⟩

/-- Claim C5, evaluated at the failing input: on a non-empty filtered
subset whose `Enrollments` cells are all missing, the code does not
display total 0 — `df_f["Enrollments"].sum(min_count=1)` is the missing
value, its truthiness in `... or 0` raises, and the guarded KPI block
shows the inline error message instead of any KPI. -/
theorem kpi_allmissing_sum_errors :
    (prepared [wBad]).length = 4 ∧
    (prepared [wBad]).map (fun r => r.enrollments) =
      [Cell.na, Cell.na, Cell.na, Cell.na] ∧
    computeKpis (prepared [wBad]) =
      KpiOutcome.kpiError "Error calculando KPIs: boolean value of NA is ambiguous" :=
  ⟨by decide, by decide, by decide⟩

/-- Claim C6: the dashboard sections are independently guarded — every
section is a function of the filtered subset alone, and when the KPI block
fails its error is confined to the `kpis` field: the three charts and the
filtered table are still produced, unchanged.  (The three chart
aggregations are total in the model; the KPI guard is the one that can
fire, as `totalEnr` shows.) -/
theorem sections_isolated (df_f : List LongRecord) (e : String)
    (h : computeKpis df_f = KpiOutcome.kpiError e) :
    (renderFiltered df_f).kpis = KpiOutcome.kpiError e ∧
    (renderFiltered df_f).retChart = SectionResult.rendered (dfRet df_f) ∧
    (renderFiltered df_f).satChart = SectionResult.rendered (dfSat df_f) ∧
    (renderFiltered df_f).termChart = SectionResult.rendered (dfTerm df_f) ∧
    (renderFiltered df_f).filteredTable = df_f :=
  ⟨h, rfl, rfl, rfl, rfl⟩

theorem sections_isolated_witness :
    (renderFiltered (prepared [wBad])).kpis =
      KpiOutcome.kpiError "Error calculando KPIs: boolean value of NA is ambiguous" ∧
    (renderFiltered (prepared [wBad])).retChart =
      SectionResult.rendered (dfRet (prepared [wBad])) ∧
    (renderFiltered (prepared [wBad])).filteredTable = prepared [wBad] := by
  have h := sections_isolated (prepared [wBad])
    "Error calculando KPIs: boolean value of NA is ambiguous" (by decide)
  exact ⟨h.1, h.2.1, h.2.2.2.2⟩

/-- Claim C7: the Validator/Coercer is cell-local and total: non-target
columns are unchanged, a target cell that fails to parse (a non-numeric
string) becomes a missing value for that cell only, a numeric target cell
keeps its value, no row is dropped (the mapped table has the same length),
and the stage is a total function, so no exception propagates. -/
theorem coercion_cell_local (r : LongRecord) :
    (coerceRecord r).term = r.term ∧
    (coerceRecord r).department = r.department ∧
    (coerceRecord r).admitted = r.admitted ∧
    (coerceRecord r).enrolled = r.enrolled ∧
    (coerceRecord r).enrollmentsDept = r.enrollmentsDept ∧
    (∀ s, r.year = Cell.str s → (coerceRecord r).year = Cell.na) ∧
    (∀ q, r.year = Cell.num q → (coerceRecord r).year = Cell.num q) ∧
    (∀ s, r.applications = Cell.str s → (coerceRecord r).applications = Cell.na) ∧
    (∀ q, r.applications = Cell.num q → (coerceRecord r).applications = Cell.num q) ∧
    (∀ s, r.enrollments = Cell.str s → (coerceRecord r).enrollments = Cell.na) ∧
    (∀ q, r.enrollments = Cell.num q → (coerceRecord r).enrollments = Cell.num q) ∧
    (∀ s, r.retentionRate = Cell.str s → (coerceRecord r).retentionRate = Cell.na) ∧
    (∀ q, r.retentionRate = Cell.num q → (coerceRecord r).retentionRate = Cell.num q) ∧
    (∀ s, r.satisfactionScore = Cell.str s →
      (coerceRecord r).satisfactionScore = Cell.na) ∧
    (∀ q, r.satisfactionScore = Cell.num q →
      (coerceRecord r).satisfactionScore = Cell.num q) ∧
    (∀ df : List LongRecord, (df.map coerceRecord).length = df.length) := by
  refine ⟨rfl, rfl, rfl, rfl, rfl, ?_, ?_, ?_, ?_, ?_, ?_, ?_, ?_, ?_, ?_,
    fun df => List.length_map df coerceRecord⟩ <;>
  · intro v hv
    simp [coerceRecord, to_numeric, hv]

theorem coercion_cell_local_witness :
    (coerceRecord recBadApp).applications = Cell.na ∧
    (coerceRecord recBadApp).term = recBadApp.term ∧
    (coerceRecord recBadApp).enrollmentsDept = recBadApp.enrollmentsDept := by
  have h := coercion_cell_local recBadApp
  exact ⟨h.2.2.2.2.2.2.2.1 "abc" rfl, h.1, h.2.2.2.2.1⟩

/-- Claim C8: the yearly retention (resp. satisfaction) series is the mean
of RetentionRate (resp. SatisfactionScore) grouped by Year: one row per
distinct non-missing Year, keys in ascending order and without duplicates,
each value the skipna mean of that year's group; the two-row 2020/2021
scenario yields [(2020, 80.0), (2021, 90.0)]. -/
theorem yearly_series (df : List LongRecord) :
    List.Sorted cellLE ((dfRet df).map Prod.fst) ∧
    ((dfRet df).map Prod.fst).Nodup ∧
    (dfSat df).map Prod.fst = (dfRet df).map Prod.fst ∧
    (∀ k : Cell, k ∈ (dfRet df).map Prod.fst ↔
      k ≠ Cell.na ∧ ∃ r ∈ df, r.year = k) ∧
    (∀ p ∈ dfRet df, p.2 =
      meanCells ((df.filter (fun r => decide (r.year = p.1))).map
        (fun r => r.retentionRate))) ∧
    (∀ p ∈ dfSat df, p.2 =
      meanCells ((df.filter (fun r => decide (r.year = p.1))).map
        (fun r => r.satisfactionScore))) ∧
    dfRet [rec2020, rec2021] =
      [(Cell.num 2020, some 80), (Cell.num 2021, some 90)] := by
  have hfstR : (dfRet df).map Prod.fst = groupKeys (fun r => r.year) df :=
    map_fst_groupbyMean _ _ df
  have hfstS : (dfSat df).map Prod.fst = groupKeys (fun r => r.year) df :=
    map_fst_groupbyMean _ _ df
  refine ⟨?_, ?_, ?_, ?_, ?_, ?_, ?_⟩
  · rw [hfstR]
    exact List.sorted_insertionSort cellLE _
  · rw [hfstR]
    exact (List.Perm.nodup_iff (List.perm_insertionSort cellLE _)).mpr
      (nodup_uniqueList _)
  · rw [hfstR, hfstS]
  · intro k
    rw [hfstR]
    exact mem_groupKeys _ df k
  · intro p hp
    obtain ⟨k, hk, heq⟩ := List.mem_map.mp hp
    rw [← heq]
  · intro p hp
    obtain ⟨k, hk, heq⟩ := List.mem_map.mp hp
    rw [← heq]
  · have h1 : dfRet [rec2020, rec2021] =
        [(Cell.num 2020, meanCells [Cell.num 80]),
         (Cell.num 2021, meanCells [Cell.num 90])] := by rfl
    have h2 : meanCells [Cell.num 80] = some 80 := by simp [meanCells, numVal]
    have h3 : meanCells [Cell.num 90] = some 90 := by simp [meanCells, numVal]
    rw [h1, h2, h3]

theorem yearly_series_witness :
    dfRet [rec2020, rec2021] =
      [(Cell.num 2020, some 80), (Cell.num 2021, some 90)] ∧
    Cell.num 2020 ∈ (dfRet [rec2020, rec2021]).map Prod.fst := by
  have h := yearly_series [rec2020, rec2021]
  exact ⟨h.2.2.2.2.2.2,
    (h.2.2.2.1 (Cell.num 2020)).mpr ⟨by decide, rec2020, by decide, rfl⟩⟩

/-- Claim C9: round-trip — for a well-formed wide row (the four department
cells numeric), the sum of `EnrollmentsDept` over the four long rows
produced from it equals the sum of the row's four original wide
department-enrollment columns. -/
theorem enrollments_roundtrip (rows : List WideRow) (i : Nat)
    (hi : i < rows.length) (a b c d : ℚ)
    (ha : rows[i].engineeringEnrolled = Cell.num a)
    (hb : rows[i].businessEnrolled = Cell.num b)
    (hc : rows[i].artsEnrolled = Cell.num c)
    (hd : rows[i].scienceEnrolled = Cell.num d) :
    ∃ r1 r2 r3 r4 : LongRecord,
      (reshape rows)[i]? = some r1 ∧
      (reshape rows)[rows.length + i]? = some r2 ∧
      (reshape rows)[2 * rows.length + i]? = some r3 ∧
      (reshape rows)[3 * rows.length + i]? = some r4 ∧
      sumCells [r1.enrollmentsDept, r2.enrollmentsDept,
        r3.enrollmentsDept, r4.enrollmentsDept] =
        sumCells [rows[i].engineeringEnrolled, rows[i].businessEnrolled,
          rows[i].artsEnrolled, rows[i].scienceEnrolled] ∧
      sumCells [rows[i].engineeringEnrolled, rows[i].businessEnrolled,
        rows[i].artsEnrolled, rows[i].scienceEnrolled] = a + b + c + d := by
  obtain ⟨h1, h2, h3, h4⟩ := reshape_positions rows i hi
  refine ⟨expEng rows[i], expBus rows[i], expArts rows[i], expSci rows[i],
    h1, h2, h3, h4, rfl, ?_⟩
  simp [sumCells, numVal, ha, hb, hc, hd]
  ring

theorem enrollments_roundtrip_witness :
    ∃ r1 r2 r3 r4 : LongRecord,
      (reshape [sampleWide])[0]? = some r1 ∧
      (reshape [sampleWide])[[sampleWide].length + 0]? = some r2 ∧
      (reshape [sampleWide])[2 * [sampleWide].length + 0]? = some r3 ∧
      (reshape [sampleWide])[3 * [sampleWide].length + 0]? = some r4 ∧
      sumCells [r1.enrollmentsDept, r2.enrollmentsDept,
        r3.enrollmentsDept, r4.enrollmentsDept] =
        sumCells [sampleWide.engineeringEnrolled, sampleWide.businessEnrolled,
          sampleWide.artsEnrolled, sampleWide.scienceEnrolled] ∧
      sumCells [sampleWide.engineeringEnrolled, sampleWide.businessEnrolled,
        sampleWide.artsEnrolled, sampleWide.scienceEnrolled] =
        50 + 30 + 10 + 10 :=
  enrollments_roundtrip [sampleWide] 0 (by decide) 50 30 10 10 rfl rfl rfl rfl

/-- Claim C10: each default selection is the sorted distinct non-missing
values of its column — empty exactly when the column has no non-missing
value — and under the default selections a row whose Year (resp. Term) is
missing is excluded from the filter output whenever that dimension's
default list is non-empty.  (The melted Department column is one of four
literal strings and never missing, so the Department case is vacuous.) -/
theorem default_selection_missing (df : List LongRecord) :
    (defaultYears df = [] ↔ ∀ r ∈ df, r.year = Cell.na) ∧
    (defaultTerms df = [] ↔ ∀ r ∈ df, r.term = Cell.na) ∧
    (∀ r : LongRecord, r.year = Cell.na → defaultYears df ≠ [] →
      r ∉ filterEngine (defaultYears df) (defaultDepts df)
        (defaultTerms df) df) ∧
    (∀ r : LongRecord, r.term = Cell.na → defaultTerms df ≠ [] →
      r ∉ filterEngine (defaultYears df) (defaultDepts df)
        (defaultTerms df) df) := by
  have hmemY : ∀ c, c ∈ defaultYears df ↔ c ≠ Cell.na ∧ ∃ r ∈ df, r.year = c :=
    fun c => mem_defaultSelection (fun r => r.year) df c
  have hmemT : ∀ c, c ∈ defaultTerms df ↔ c ≠ Cell.na ∧ ∃ r ∈ df, r.term = c :=
    fun c => mem_defaultSelection (fun r => r.term) df c
  refine ⟨⟨?_, ?_⟩, ⟨?_, ?_⟩, ?_, ?_⟩
  · intro hempty r hr
    by_contra hne
    have : r.year ∈ defaultYears df := (hmemY r.year).mpr ⟨hne, r, hr, rfl⟩
    simp [hempty] at this
  · intro hall
    rw [List.eq_nil_iff_forall_not_mem]
    intro c hc
    obtain ⟨hne, r, hr, hyr⟩ := (hmemY c).mp hc
    exact hne (hyr ▸ hall r hr)
  · intro hempty r hr
    by_contra hne
    have : r.term ∈ defaultTerms df := (hmemT r.term).mpr ⟨hne, r, hr, rfl⟩
    simp [hempty] at this
  · intro hall
    rw [List.eq_nil_iff_forall_not_mem]
    intro c hc
    obtain ⟨hne, r, hr, hyr⟩ := (hmemT c).mp hc
    exact hne (hyr ▸ hall r hr)
  · intro r hna hne hmem
    have h := (mem_filterEngine _ _ _ df r).mp hmem
    rcases h.2.1 with h0 | hin
    · exact hne h0
    · exact ((hmemY r.year).mp hin).1 hna
  · intro r hna hne hmem
    have h := (mem_filterEngine _ _ _ df r).mp hmem
    rcases h.2.2.2 with h0 | hin
    · exact hne h0
    · exact ((hmemT r.term).mp hin).1 hna

theorem default_selection_missing_witness :
    defaultYears [rec2020, recNAYear] = [Cell.num 2020] ∧
    recNAYear ∉ filterEngine (defaultYears [rec2020, recNAYear])
      (defaultDepts [rec2020, recNAYear]) (defaultTerms [rec2020, recNAYear])
      [rec2020, recNAYear] := by
  have h := default_selection_missing [rec2020, recNAYear]
  exact ⟨by decide, h.2.2.1 recNAYear rfl (by decide)⟩
